import Mathlib

/-!
Shallow embedding of the core analysis modules of the bot-demo repository:
`worker/doc_ai_parser.py` (fragment geometry, title normalization, row
reconciliation) and `worker/image_processor.py` (rotation decision, image
pipeline control flow).

Modelling conventions:
* Python strings are Lean `String`s; character-level operations are carried
  out on `String.data` (the list of code points), matching Python's view of
  a string as a sequence of characters.
* Normalized page coordinates (floats in `[0,1]` in the source) are modelled
  as rationals `ℚ`; every arithmetic operation of the source is translated
  to the corresponding exact rational operation.
* Python's stable `sorted(xs, key=...)` is modelled by `List.insertionSort`
  with the total preorder induced by the key, which is a stable sort and
  therefore produces the same list as CPython's stable sort.
* Fallible paths return `Option` / `Except`.
-/

/-- Intermediate record built from a Document AI entity
(`ParsedEntity` dataclass in `doc_ai_parser.py`). -/
structure ParsedEntity where
  text : String
  type : String
  center_y : ℚ
  center_x : ℚ
  x_min : ℚ
  x_max : ℚ
  height : ℚ
deriving DecidableEq

/-- One normalized vertex of a bounding polygon; the source guards against
absent `x`/`y` components, hence the `Option`s. -/
structure NormalizedVertex where
  x : Option ℚ
  y : Option ℚ
deriving DecidableEq

/-- A raw Document AI entity as consumed by the parser: mention text, type
tag, and the page anchor's page refs, each carrying the normalized vertices
of its bounding polygon. -/
structure Entity where
  mention_text : String
  type_ : String
  page_refs : List (List NormalizedVertex)
deriving DecidableEq

/-- Shorthand for the rational `n / d`. -/
def q (n d : ℤ) : ℚ := Rat.divInt n d

/-- Rational addition, written through `Rat.divInt` so that concrete runs
reduce inside the kernel; proven equal to `+` below (`qAdd_eq`). -/
def qAdd (a b : ℚ) : ℚ := Rat.divInt (a.num * b.den + b.num * a.den) (a.den * b.den)

/-- Rational subtraction; proven equal to `-` below (`qSub_eq`). -/
def qSub (a b : ℚ) : ℚ := Rat.divInt (a.num * b.den - b.num * a.den) (a.den * b.den)

/-- Rational multiplication; proven equal to `*` below (`qMul_eq`). -/
def qMul (a b : ℚ) : ℚ := Rat.divInt (a.num * b.num) (a.den * b.den)

/-- Rational division; proven equal to `/` below (`qDiv_eq`). -/
def qDiv (a b : ℚ) : ℚ := Rat.divInt (a.num * b.den) (a.den * b.num)

/-- `str.replace('\n', '')`: drop every newline character. -/
def removeNewlines (s : String) : String :=
  String.mk (s.data.filter (fun c => c ≠ '\n'))

/-- Python `min` over a nonempty list `x :: xs` of rationals. -/
def listMin (x : ℚ) (xs : List ℚ) : ℚ := xs.foldl min x

/-- Python `max` over a nonempty list `x :: xs` of rationals. -/
def listMax (x : ℚ) (xs : List ℚ) : ℚ := xs.foldl max x

/-- `_create_parsed_entity` of `doc_ai_parser.py`: safely derive the
bounding-box record of an entity, returning `none` when the page refs are
missing, the polygon has fewer than 4 vertices, or coordinate extraction
yields an empty coordinate set. -/
def _create_parsed_entity (entity : Entity) : Option ParsedEntity :=
  match entity.page_refs with
  | [] => none
  | vertices :: _ =>
    if vertices.length < 4 then none
    else
      match vertices.filterMap NormalizedVertex.x, vertices.filterMap NormalizedVertex.y with
      | [], _ => none
      | _, [] => none
      | x0 :: xs, y0 :: ys =>
        let y_min := listMin y0 ys
        let y_max := listMax y0 ys
        let x_min := listMin x0 xs
        let x_max := listMax x0 xs
        some
          { text := removeNewlines entity.mention_text
            type := entity.type_
            center_y := qDiv (qAdd y_min y_max) 2
            center_x := qDiv (qAdd x_min x_max) 2
            x_min := x_min
            x_max := x_max
            height := qSub y_max y_min }

/-- `config.CREDIT_CHARS`. -/
def CREDIT_CHARS : List Char := ['ク', 'レ', 'ジ', 'ッ', 'ト']

/-- `config.CASH_CHARS`. -/
def CASH_CHARS : List Char := ['現', '金']

/-- `config.PAYMENT_CHARS`. -/
def PAYMENT_CHARS : List Char := ['支', '払']

/-- `config.RECEIPT_CHARS`. -/
def RECEIPT_CHARS : List Char := ['受', '入']

/-- `any(c in raw_title for c in chars)`. -/
def hasAnyChar (s : String) (chars : List Char) : Bool :=
  chars.any (fun c => s.data.contains c)

/-- `_normalize_title` of `doc_ai_parser.py`: fuzzy canonicalization of a
title by indicator-character membership with mutual exclusion on both the
payment-mode axis and the direction axis. -/
def _normalize_title (raw_title : String) : String :=
  if raw_title = "" then raw_title
  else
    let has_credit := hasAnyChar raw_title CREDIT_CHARS
    let has_cash := hasAnyChar raw_title CASH_CHARS
    let has_payment := hasAnyChar raw_title PAYMENT_CHARS
    let has_receipt := hasAnyChar raw_title RECEIPT_CHARS
    if has_credit && !has_cash then
      if has_payment && !has_receipt then "クレジット支払"
      else if has_receipt && !has_payment then "クレジット受入"
      else raw_title
    else if has_cash && !has_credit then
      if has_payment && !has_receipt then "現金支払"
      else if has_receipt && !has_payment then "現金受入"
      else raw_title
    else raw_title

/-- OpenCV rotation codes used by the pipeline. -/
inductive RotationCode where
  | rotate90Clockwise
  | rotate180
deriving DecidableEq

/-- `DocAnalyzer._decide_90_rotation` of `image_processor.py`: vote-based
90° rotation decision (`1.2` is the exact decimal threshold of the source). -/
def _decide_90_rotation (horizontal_votes vertical_votes : ℕ) : Option RotationCode :=
  let total_votes := horizontal_votes + vertical_votes
  if total_votes < 3 then none
  else if (vertical_votes : ℚ) > qMul (horizontal_votes : ℚ) (q 12 10) ∨
      (horizontal_votes = 0 ∧ vertical_votes > 2) then
    some RotationCode.rotate90Clockwise
  else none

/-- Python's stable `sorted(entities, key=lambda e: e.center_y)`. -/
def sortByCenterY (l : List ParsedEntity) : List ParsedEntity :=
  List.insertionSort (fun a b => a.center_y ≤ b.center_y) l

/-- Python's stable `sorted(entities, key=lambda e: e.center_x)`. -/
def sortByCenterX (l : List ParsedEntity) : List ParsedEntity :=
  List.insertionSort (fun a b => a.center_x ≤ b.center_x) l

/-- `_calculate_dynamic_tolerance` of `doc_ai_parser.py`: average the middle
60% of fragment heights above the `0.001` epsilon and set the tolerance to
`max(avg_height * 0.95, 0.008)`; `0.01` on empty input. -/
def _calculate_dynamic_tolerance (entities : List ParsedEntity) : ℚ :=
  if entities = [] then q 1 100
  else
    let heights :=
      List.insertionSort (fun a b => a ≤ b)
        ((entities.map ParsedEntity.height).filter (fun h => h > q 1 1000))
    if heights = [] then q 1 100
    else
      let stable_start_index := heights.length / 5
      let stable_end_index := heights.length * 4 / 5
      let stable_heights := (heights.drop stable_start_index).take (stable_end_index - stable_start_index)
      let stable_heights := if stable_heights = [] then heights else stable_heights
      let avg_height := qDiv (stable_heights.foldl qAdd 0) ((stable_heights.length : ℚ))
      max (qMul avg_height (q 95 100)) (q 8 1000)

/-- Loop of `_group_entities_by_row`: `first :: cur` is the current group
(whose reference y is fixed to `first.center_y`), `done` the finished
groups. -/
def _group_rows_go (y_tolerance : ℚ) (first : ParsedEntity) (cur : List ParsedEntity)
    (done : List (List ParsedEntity)) : List ParsedEntity → List (List ParsedEntity)
  | [] => done ++ [first :: cur]
  | e :: es =>
    if |qSub e.center_y first.center_y| < y_tolerance then
      _group_rows_go y_tolerance first (cur ++ [e]) done es
    else
      _group_rows_go y_tolerance e [] (done ++ [first :: cur]) es

/-- `_group_entities_by_row` of `doc_ai_parser.py`: adjacency-based split of
the y-sorted entities into rows, each entity joining the current group iff
its `center_y` is within `y_tolerance` of the group's first entity. -/
def _group_entities_by_row (entities : List ParsedEntity) (y_tolerance : ℚ) :
    List (List ParsedEntity) :=
  match sortByCenterY entities with
  | [] => []
  | e0 :: rest => _group_rows_go y_tolerance e0 [] [] rest

/-- Item-text cleanup
`.replace(' ', '').replace('　', '').replace('@', '(a)')` at character
level (the replacement `"(a)"` introduces none of the removed characters,
so the sequential passes equal this single pass). -/
def cleanItemChars : List Char → List Char
  | [] => []
  | c :: cs =>
    if c = ' ' ∨ c = '　' then cleanItemChars cs
    else if c = '@' then '(' :: 'a' :: ')' :: cleanItemChars cs
    else c :: cleanItemChars cs

/-- Item-text cleanup on strings. -/
def cleanItemText (s : String) : String := String.mk (cleanItemChars s.data)

/-- `re.sub(r'[^0-9]', '', s)`: keep only ASCII digits. -/
def filterDigits (s : String) : String := String.mk (s.data.filter Char.isDigit)

/-- `' '.join(texts)`. -/
def joinSpace (texts : List String) : String :=
  String.mk (List.intercalate [' '] (texts.map String.data))

/-- A final `{'item': ..., 'amount': ...}` record. -/
structure LineItem where
  item : String
  amount : String
deriving DecidableEq

/-- Ordinal pairing (Strategy A) of `parse_document_entities`: sort items
and amounts independently by `center_y` and pair by index (the branch is
entered only with equal counts, where index-pairing is `zip`). -/
def strategyA (item_entities amount_entities : List ParsedEntity) : List LineItem :=
  let sorted_items := sortByCenterY item_entities
  let sorted_amounts := sortByCenterY amount_entities
  (sorted_items.zip sorted_amounts).map fun p =>
    { item := cleanItemText p.1.text, amount := filterDigits p.2.text }

/-- The `final_item_text` of a row in Strategy B: x-sorted item texts merged
with single spaces, then cleaned. -/
def rowFinalItemText (row : List ParsedEntity) : String :=
  cleanItemText
    (joinSpace ((sortByCenterX (row.filter (fun e => e.type = "item"))).map ParsedEntity.text))

/-- The `final_amount_text` of a row in Strategy B, together with the
review contribution of the x-overlap check: with both kinds present the
amount text is kept only if the rightmost item ends left of the leftmost
amount, otherwise it is discarded and review is flagged. -/
def rowAmountTextAndFlag (row : List ParsedEntity) : String × Bool :=
  let row_items := sortByCenterX (row.filter (fun e => e.type = "item"))
  let row_amounts := sortByCenterX (row.filter (fun e => e.type = "amount"))
  match row_items, row_amounts with
  | i0 :: is', a0 :: _ =>
    if ((i0 :: is').getLast (List.cons_ne_nil i0 is')).x_max < a0.x_min then
      (filterDigits (joinSpace (row_amounts.map ParsedEntity.text)), false)
    else ("", true)
  | [], _ :: _ => (filterDigits (joinSpace (row_amounts.map ParsedEntity.text)), false)
  | _, [] => ("", false)

/-- Per-row body of Step 4 of `parse_document_entities`: the line items the
row emits and the row's contribution to `is_review_needed`. -/
def processRow (row : List ParsedEntity) : List LineItem × Bool :=
  let final_item_text := rowFinalItemText row
  let amountFlag := rowAmountTextAndFlag row
  let final_amount_text := amountFlag.1
  if final_item_text ≠ "" ∧ final_amount_text ≠ "" then
    ([{ item := final_item_text, amount := final_amount_text }], amountFlag.2)
  else if final_item_text ≠ "" then
    ([{ item := final_item_text, amount := "0" }], true)
  else if final_amount_text ≠ "" then
    ([{ item := "項目不明", amount := final_amount_text }], true)
  else ([], amountFlag.2)

/-- One iteration of the Strategy-B loop: extend the accumulated line items
with the row's emissions and or the row's review contribution into
`is_review_needed`. -/
def strategyBStep (acc : List LineItem × Bool) (row : List ParsedEntity) :
    List LineItem × Bool :=
  let r := processRow row
  (acc.1 ++ r.1, acc.2 || r.2)

/-- The Strategy-B loop over the row groups, accumulating emitted line items
and or-ing the review contributions into `is_review_needed`. -/
def strategyBFold (rows : List (List ParsedEntity)) : List LineItem × Bool :=
  rows.foldl strategyBStep ([], false)

/-- State of the Step-1 preprocessing loop of `parse_document_entities`. -/
structure CollectState where
  item_entities : List ParsedEntity
  amount_entities : List ParsedEntity
  title : Option String
  shop_name : Option String
  date : Option String
deriving DecidableEq

/-- Initial preprocessing state (`extracted_data` with all scalar fields
`None` and empty entity lists). -/
def initCollectState : CollectState :=
  { item_entities := [], amount_entities := [], title := none, shop_name := none, date := none }

/-- One iteration of the Step-1 loop: item/amount entities are converted by
`_create_parsed_entity` (dropped when it fails); `title`/`shop_name`/`date`
take the first occurrence, the title passing through `_normalize_title`. -/
def collectStep (st : CollectState) (entity : Entity) : CollectState :=
  if entity.type_ = "item" ∨ entity.type_ = "amount" then
    match _create_parsed_entity entity with
    | some pe =>
      if entity.type_ = "item" then
        { st with item_entities := st.item_entities ++ [pe] }
      else
        { st with amount_entities := st.amount_entities ++ [pe] }
    | none => st
  else if entity.type_ = "title" ∧ st.title = none then
    { st with title := some (_normalize_title (removeNewlines entity.mention_text)) }
  else if entity.type_ = "shop_name" ∧ st.shop_name = none then
    { st with shop_name := some (removeNewlines entity.mention_text) }
  else if entity.type_ = "date" ∧ st.date = none then
    { st with date := some (removeNewlines entity.mention_text) }
  else st

/-- Step 1 of `parse_document_entities` over the document's entity list. -/
def collectEntities (entities : List Entity) : CollectState :=
  entities.foldl collectStep initCollectState

/-- The value `(extracted_data, is_review_needed, user_warning)` returned by
`parse_document_entities`, flattened into one record. -/
structure ParseResult where
  title : Option String
  shop_name : Option String
  date : Option String
  line_items : List LineItem
  review_needed : Bool
  warning : Option String
deriving DecidableEq

/-- User warning suggesting a retake (emitted for 3 or more line items). -/
def warningRetake : String :=
  "の写真が傾いているか、手ぶれで読み漏れが発生しました。もう一度撮影してアップロードするか、テレマスにて手修正してください。"

/-- User warning suggesting manual correction (fewer than 3 line items). -/
def warningManual : String :=
  "の写真が傾いているか、手ぶれで読み漏れが発生しました。テレマスにて手修正してください。"

/-- Step-5 warning generation of `parse_document_entities`. -/
def makeUserWarning (is_review_needed : Bool) (line_items : List LineItem) : Option String :=
  if is_review_needed ∧ line_items ≠ [] then
    if line_items.length ≥ 3 then some warningRetake else some warningManual
  else none

/-- `parse_document_entities` of `doc_ai_parser.py`: preprocess the
entities, choose Strategy A (ordinal pairing) when the item count equals
the nonzero amount count, otherwise Strategy B (dynamic-tolerance row
grouping); assemble the final result and user warning. -/
def parse_document_entities (entities : List Entity) : ParseResult :=
  let st := collectEntities entities
  if st.item_entities ≠ [] ∧ st.item_entities.length = st.amount_entities.length then
    let line_items := strategyA st.item_entities st.amount_entities
    { title := st.title, shop_name := st.shop_name, date := st.date,
      line_items := line_items, review_needed := false,
      warning := makeUserWarning false line_items }
  else
    let all_entities := st.item_entities ++ st.amount_entities
    if all_entities = [] then
      { title := st.title, shop_name := st.shop_name, date := st.date,
        line_items := [], review_needed := false, warning := none }
    else
      let y_tolerance := _calculate_dynamic_tolerance all_entities
      let row_groups := _group_entities_by_row all_entities y_tolerance
      let r := strategyBFold row_groups
      { title := st.title, shop_name := st.shop_name, date := st.date,
        line_items := r.1, review_needed := r.2,
        warning := makeUserWarning r.2 r.1 }

/-- The external image operations `process_image` composes (PIL decode +
EXIF transpose + BGR conversion, OpenCV conversions, the analyzers of
`DocAnalyzer`, rotation, shadow removal, JPEG encoding). Each may raise,
which the shallow embedding expresses with `Except`; `imencodeJpeg` returns
OpenCV's `(success, buffer)` pair. -/
structure ImagePrimitives (Img Bytes : Type) where
  decodeAndOrient : Bytes → Except String Img
  toGray : Img → Except String Img
  getPaperMask : Img → Except String Img
  analyzeOrientation90 : Img → Img → Except String (Option RotationCode)
  rotateImage : Img → RotationCode → Except String Img
  analyzeUpsideDown180 : Img → Img → Except String (Option RotationCode)
  removeShadows : Img → Except String Img
  imencodeJpeg : Img → Except String (Bool × Bytes)

/-- The `try` body of `process_image` in `image_processor.py`: decode and
EXIF-correct, 90° stage, 180° stage, final shadow removal, JPEG encode.
Returns `some buffer` on success and `none` when `cv2.imencode` reports
failure; any exception of a step propagates as `Except.error`. -/
def processImageBody {Img Bytes : Type} (p : ImagePrimitives Img Bytes)
    (image_bytes : Bytes) : Except String (Option Bytes) := do
  let pil_img ← p.decodeAndOrient image_bytes
  let current_color := pil_img
  let current_gray ← p.toGray current_color
  let mask ← p.getPaperMask current_gray
  let rotate_cmd ← p.analyzeOrientation90 current_gray mask
  let state ←
    match rotate_cmd with
    | some cmd => do
      let c ← p.rotateImage current_color cmd
      let g ← p.rotateImage current_gray cmd
      let m ← p.rotateImage mask cmd
      pure (c, g, m)
    | none => pure (current_color, current_gray, mask)
  let rotate_cmd_180 ← p.analyzeUpsideDown180 state.2.1 state.2.2
  let current_color_2 ←
    match rotate_cmd_180 with
    | some cmd => p.rotateImage state.1 cmd
    | none => pure state.1
  let final_gray ← p.toGray current_color_2
  let final_output ← p.removeShadows final_gray
  let enc ← p.imencodeJpeg final_output
  if enc.1 then pure (some enc.2) else pure none

/-- `process_image` of `image_processor.py`: run the pipeline body; on a
failed JPEG encode or on any internal exception return the original input
bytes unchanged. -/
def process_image {Img Bytes : Type} (p : ImagePrimitives Img Bytes)
    (image_bytes : Bytes) : Bytes :=
  match processImageBody p image_bytes with
  | Except.ok (some buffer) => buffer
  | Except.ok none => image_bytes
  | Except.error _ => image_bytes

/-! Concrete inputs used by the witnesses and counterexamples below. -/

/-- A rectangle `[x0,x1] × [y0,y1]` as a 4-vertex normalized polygon. -/
def rectVertices (x0 x1 y0 y1 : ℚ) : List NormalizedVertex :=
  [⟨some x0, some y0⟩, ⟨some x1, some y0⟩, ⟨some x1, some y1⟩, ⟨some x0, some y1⟩]

/-- C1: a single item fragment spanning x `[0.1, 0.9]`. -/
def itemEntityC1 : Entity :=
  { mention_text := "テスト項目", type_ := "item",
    page_refs := [rectVertices (q 1 10) (q 9 10) (q 2 10) (q 3 10)] }

/-- C1: a single amount fragment starting at x `0.5`, inside the item's
x-extent. -/
def amountEntityC1 : Entity :=
  { mention_text := "¥500", type_ := "amount",
    page_refs := [rectVertices (q 1 2) (q 7 10) (q 2 10) (q 3 10)] }

/-- The fragment box derived from `itemEntityC1`. -/
def itemBoxC1 : ParsedEntity :=
  { text := "テスト項目", type := "item", center_y := q 1 4, center_x := q 1 2,
    x_min := q 1 10, x_max := q 9 10, height := q 1 10 }

/-- The fragment box derived from `amountEntityC1`. -/
def amountBoxC1 : ParsedEntity :=
  { text := "¥500", type := "amount", center_y := q 1 4, center_x := q 3 5,
    x_min := q 1 2, x_max := q 7 10, height := q 1 10 }

/-- C2: an entity whose 4 polygon vertices coincide, so the derived height
is `0`. -/
def degenerateEntityC2 : Entity :=
  { mention_text := "点", type_ := "item",
    page_refs := [[⟨some (q 1 2), some (q 1 2)⟩, ⟨some (q 1 2), some (q 1 2)⟩,
                   ⟨some (q 1 2), some (q 1 2)⟩, ⟨some (q 1 2), some (q 1 2)⟩]] }

/-- C2: an ordinary well-formed entity. -/
def squareEntityC2 : Entity :=
  { mention_text := "行", type_ := "item",
    page_refs := [rectVertices (q 1 10) (q 9 10) (q 2 10) (q 3 10)] }

/-- The fragment box derived from `squareEntityC2`. -/
def squareBoxC2 : ParsedEntity :=
  { text := "行", type := "item", center_y := q 1 4, center_x := q 1 2,
    x_min := q 1 10, x_max := q 9 10, height := q 1 10 }

/-- C3: the two-row demo document of the spec's end-to-end scenario
(items 商品A/商品B at y 0.2/0.4, amounts ¥1,000/¥2,000 at y 0.2/0.4). -/
def demoDocC3 : List Entity :=
  [ { mention_text := "商品A", type_ := "item",
      page_refs := [rectVertices (q 1 10) (q 4 10) (q 15 100) (q 25 100)] },
    { mention_text := "商品B", type_ := "item",
      page_refs := [rectVertices (q 1 10) (q 4 10) (q 35 100) (q 45 100)] },
    { mention_text := "¥1,000", type_ := "amount",
      page_refs := [rectVertices (q 6 10) (q 9 10) (q 15 100) (q 25 100)] },
    { mention_text := "¥2,000", type_ := "amount",
      page_refs := [rectVertices (q 6 10) (q 9 10) (q 35 100) (q 45 100)] } ]

/-- C4: row fragments whose x-extents violate the item-before-amount
ordering (`item.x_max = 0.9`, `amount.x_min = 0.5`). -/
def itemBoxC4 : ParsedEntity :=
  { text := "品目", type := "item", center_y := 0, center_x := q 1 2,
    x_min := q 1 10, x_max := q 9 10, height := q 1 10 }

/-- C4: the overlapping amount fragment of the row. -/
def amountBoxC4 : ParsedEntity :=
  { text := "500", type := "amount", center_y := 0, center_x := q 3 5,
    x_min := q 1 2, x_max := q 7 10, height := q 1 10 }

/-- C5: primitives whose decode step raises, over trivial image/byte
types. -/
def failingPrimitivesC5 : ImagePrimitives Unit ℕ :=
  { decodeAndOrient := fun _ => Except.error "cannot identify image file",
    toGray := fun i => Except.ok i,
    getPaperMask := fun i => Except.ok i,
    analyzeOrientation90 := fun _ _ => Except.ok none,
    rotateImage := fun i _ => Except.ok i,
    analyzeUpsideDown180 := fun _ _ => Except.ok none,
    removeShadows := fun i => Except.ok i,
    imencodeJpeg := fun _ => Except.ok (true, 7) }

/-- C8: a document carrying only a title entity (the spec's title
scenario), hence no item and no amount fragments. -/
def titleOnlyDocC8 : List Entity :=
  [ { mention_text := "出納表(クレジット支払)", type_ := "title", page_refs := [] } ]

/-- C10: one item fragment. -/
def itemEntityC10 : Entity :=
  { mention_text := "項目X", type_ := "item",
    page_refs := [rectVertices (q 1 10) (q 4 10) (q 2 10) (q 3 10)] }

/-- C10: one amount fragment whose text contains no digit characters. -/
def amountEntityC10 : Entity :=
  { mention_text := "なし", type_ := "amount",
    page_refs := [rectVertices (q 6 10) (q 9 10) (q 2 10) (q 3 10)] }

/-- The fragment box derived from `amountEntityC10`. -/
def amountBoxC10 : ParsedEntity :=
  { text := "なし", type := "amount", center_y := q 1 4, center_x := q 3 4,
    x_min := q 6 10, x_max := q 9 10, height := q 1 10 }

/-- C10: a Strategy-B row holding a single item fragment and no amount
fragment. -/
def loneItemBoxC10 : ParsedEntity :=
  { text := "単独", type := "item", center_y := 0, center_x := 0,
    x_min := 0, x_max := q 1 10, height := q 1 10 }

/-! ### General lemmas about the embedding -/

theorem qAdd_eq (a b : ℚ) : qAdd a b = a + b := by
  have ha : ((a.den : ℚ)) ≠ 0 := Nat.cast_ne_zero.mpr (Rat.den_ne_zero a)
  have hb : ((b.den : ℚ)) ≠ 0 := Nat.cast_ne_zero.mpr (Rat.den_ne_zero b)
  rw [qAdd, Rat.divInt_eq_div]
  push_cast
  conv_rhs => rw [← Rat.num_div_den a, ← Rat.num_div_den b]
  field_simp

theorem qSub_eq (a b : ℚ) : qSub a b = a - b := by
  have ha : ((a.den : ℚ)) ≠ 0 := Nat.cast_ne_zero.mpr (Rat.den_ne_zero a)
  have hb : ((b.den : ℚ)) ≠ 0 := Nat.cast_ne_zero.mpr (Rat.den_ne_zero b)
  rw [qSub, Rat.divInt_eq_div]
  push_cast
  conv_rhs => rw [← Rat.num_div_den a, ← Rat.num_div_den b]
  field_simp
  ring

theorem qMul_eq (a b : ℚ) : qMul a b = a * b := by
  have ha : ((a.den : ℚ)) ≠ 0 := Nat.cast_ne_zero.mpr (Rat.den_ne_zero a)
  have hb : ((b.den : ℚ)) ≠ 0 := Nat.cast_ne_zero.mpr (Rat.den_ne_zero b)
  rw [qMul, Rat.divInt_eq_div]
  push_cast
  conv_rhs => rw [← Rat.num_div_den a, ← Rat.num_div_den b]
  field_simp

theorem qDiv_eq (a b : ℚ) : qDiv a b = a / b := by
  rcases eq_or_ne b 0 with hb0 | hb0
  · subst hb0
    simp [qDiv, Rat.divInt_eq_div]
  · have ha : ((a.den : ℚ)) ≠ 0 := Nat.cast_ne_zero.mpr (Rat.den_ne_zero a)
    have hb : ((b.den : ℚ)) ≠ 0 := Nat.cast_ne_zero.mpr (Rat.den_ne_zero b)
    have hbn : ((b.num : ℚ)) ≠ 0 := by
      simpa [Rat.num_eq_zero] using hb0
    rw [qDiv, Rat.divInt_eq_div]
    push_cast
    conv_rhs => rw [← Rat.num_div_den a, ← Rat.num_div_den b]
    field_simp

theorem q_eq (n d : ℤ) : q n d = (n : ℚ) / (d : ℚ) := by
  rw [q, Rat.divInt_eq_div]

theorem listMin_le (x : ℚ) (xs : List ℚ) : listMin x xs ≤ x := by
  induction xs generalizing x with
  | nil => simp [listMin]
  | cons a t ih =>
    calc listMin x (a :: t) = listMin (min x a) t := rfl
    _ ≤ min x a := ih (min x a)
    _ ≤ x := min_le_left x a

theorem le_listMax (x : ℚ) (xs : List ℚ) : x ≤ listMax x xs := by
  induction xs generalizing x with
  | nil => simp [listMax]
  | cons a t ih =>
    calc x ≤ max x a := le_max_left x a
    _ ≤ listMax (max x a) t := ih (max x a)
    _ = listMax x (a :: t) := rfl

theorem sortByCenterY_eq_self (l : List ParsedEntity)
    (h : l.Pairwise (fun a b => a.center_y < b.center_y)) : sortByCenterY l = l :=
  List.Sorted.insertionSort_eq (h.imp fun hab => le_of_lt hab)

theorem length_sortByCenterY (l : List ParsedEntity) : (sortByCenterY l).length = l.length := by
  rw [sortByCenterY]
  exact (List.perm_insertionSort (fun a b => a.center_y ≤ b.center_y) l).length_eq

theorem getElem?_zip_of {α β : Type} (as : List α) (bs : List β) (i : ℕ) (a : α) (b : β)
    (ha : as[i]? = some a) (hb : bs[i]? = some b) : (as.zip bs)[i]? = some (a, b) := by
  induction as generalizing bs i with
  | nil => simp at ha
  | cons x xs ih =>
    cases bs with
    | nil => simp at hb
    | cons y ys =>
      cases i with
      | zero =>
        simp only [List.getElem?_cons_zero, Option.some.injEq] at ha hb
        simp [List.zip_cons_cons, ha, hb]
      | succ n =>
        simp only [List.getElem?_cons_succ] at ha hb
        simpa [List.zip_cons_cons] using ih ys n ha hb

theorem filterDigits_eq_empty (s : String)
    (h : s.data.all (fun c => !c.isDigit) = true) : filterDigits s = "" := by
  rw [filterDigits]
  have : s.data.filter Char.isDigit = [] := by
    rw [List.filter_eq_nil_iff]
    intro a ha
    have := (List.all_eq_true.mp h) a ha
    simpa using this
  rw [this]

theorem makeUserWarning_false (line_items : List LineItem) :
    makeUserWarning false line_items = none := by
  simp [makeUserWarning]

theorem parse_document_entities_strategyA (entities : List Entity)
    (hne : (collectEntities entities).item_entities ≠ [])
    (hlen : (collectEntities entities).item_entities.length =
      (collectEntities entities).amount_entities.length) :
    parse_document_entities entities =
      { title := (collectEntities entities).title,
        shop_name := (collectEntities entities).shop_name,
        date := (collectEntities entities).date,
        line_items := strategyA (collectEntities entities).item_entities
          (collectEntities entities).amount_entities,
        review_needed := false,
        warning := none } := by
  unfold parse_document_entities
  rw [if_pos ⟨hne, hlen⟩]
  simp only [makeUserWarning_false]

theorem strategyBFold_go_true (rows : List (List ParsedEntity)) (acc : List LineItem × Bool)
    (h : acc.2 = true) : (rows.foldl strategyBStep acc).2 = true := by
  induction rows generalizing acc with
  | nil => simpa using h
  | cons r rs ih =>
    simp only [List.foldl_cons]
    exact ih _ (by simp [strategyBStep, h])

theorem normalize_title_mem (s : String) :
    _normalize_title s = s ∨ _normalize_title s = "クレジット支払" ∨
    _normalize_title s = "クレジット受入" ∨ _normalize_title s = "現金支払" ∨
    _normalize_title s = "現金受入" := by
  simp only [_normalize_title]
  split_ifs <;> simp

/-! ### The claims -/

/-- C6: title normalization is idempotent: normalizing twice gives the same
string as normalizing once, for every input string. -/
theorem normalize_title_idempotent (x : String) :
    _normalize_title (_normalize_title x) = _normalize_title x := by
  rcases normalize_title_mem x with h | h | h | h | h
  · rw [h]
    exact h
  · rw [h]
    decide
  · rw [h]
    decide
  · rw [h]
    decide
  · rw [h]
    decide

/-- C7: a raw title containing at least one credit-indicator character and
at least one cash-indicator character is returned unchanged by
`_normalize_title` (the payment-mode axis is ambiguous). -/
theorem normalize_title_ambiguous_axes (s : String)
    (hc : hasAnyChar s CREDIT_CHARS = true)
    (hk : hasAnyChar s CASH_CHARS = true) :
    _normalize_title s = s := by
  unfold _normalize_title
  simp [hc, hk]

/-- C7 witness: the string "ク現" holds a credit and a cash indicator and is
returned unchanged. -/
theorem normalize_title_ambiguous_axes_witness :
    hasAnyChar "ク現" CREDIT_CHARS = true ∧ hasAnyChar "ク現" CASH_CHARS = true ∧
    _normalize_title "ク現" = "ク現" :=
  ⟨by decide, by decide, normalize_title_ambiguous_axes "ク現" (by decide) (by decide)⟩

/-- C9: the 90°-rotation decision keeps orientation when the total vote
count is below 3, and otherwise rotates 90° clockwise exactly when
`vertical_votes > horizontal_votes * 1.2` or (`horizontal_votes = 0` and
`vertical_votes > 2`). -/
theorem decide_90_rotation_spec (horizontal_votes vertical_votes : ℕ) :
    _decide_90_rotation horizontal_votes vertical_votes =
      (if 3 ≤ horizontal_votes + vertical_votes ∧
          ((vertical_votes : ℚ) > (horizontal_votes : ℚ) * (12 / 10) ∨
            (horizontal_votes = 0 ∧ vertical_votes > 2)) then
        some RotationCode.rotate90Clockwise
      else none) := by
  have hq : q 12 10 = ((12 : ℚ) / 10) := by
    rw [q_eq]
    norm_num
  unfold _decide_90_rotation
  simp only [qMul_eq, hq]
  by_cases h1 : horizontal_votes + vertical_votes < 3
  · rw [if_pos h1, if_neg]
    rintro ⟨h2, -⟩
    omega
  · rw [if_neg h1]
    by_cases h2 : (vertical_votes : ℚ) > (horizontal_votes : ℚ) * (12 / 10) ∨
        (horizontal_votes = 0 ∧ vertical_votes > 2)
    · rw [if_pos h2, if_pos ⟨by omega, h2⟩]
    · rw [if_neg h2, if_neg]
      rintro ⟨-, h3⟩
      exact h2 h3

/-- C5: if any step of the image-normalization body fails — by raising or by
a failed JPEG encode — `process_image` returns the original input bytes
unchanged; on success it returns the encoded buffer. -/
theorem process_image_returns_input_on_failure {Img Bytes : Type}
    (p : ImagePrimitives Img Bytes) (image_bytes : Bytes) :
    (∀ e, processImageBody p image_bytes = Except.error e →
      process_image p image_bytes = image_bytes) ∧
    (processImageBody p image_bytes = Except.ok none →
      process_image p image_bytes = image_bytes) ∧
    (∀ buffer, processImageBody p image_bytes = Except.ok (some buffer) →
      process_image p image_bytes = buffer) := by
  refine ⟨fun e h => ?_, fun h => ?_, fun buffer h => ?_⟩ <;>
    · unfold process_image
      rw [h]

/-- C5 witness: with a decode step that raises, `process_image` returns the
input bytes. -/
theorem process_image_returns_input_on_failure_witness :
    processImageBody failingPrimitivesC5 0 = Except.error "cannot identify image file" ∧
    process_image failingPrimitivesC5 0 = 0 :=
  ⟨rfl,
    (process_image_returns_input_on_failure failingPrimitivesC5 0).1
      "cannot identify image file" rfl⟩

/-- C8: with no usable item fragments and no usable amount fragments the
parser returns an empty line-item list with `review_needed = false` and no
user warning. -/
theorem parse_no_fragments_empty_result (entities : List Entity)
    (hitems : (collectEntities entities).item_entities = [])
    (hamounts : (collectEntities entities).amount_entities = []) :
    (parse_document_entities entities).line_items = [] ∧
    (parse_document_entities entities).review_needed = false ∧
    (parse_document_entities entities).warning = none := by
  simp [parse_document_entities, hitems, hamounts]

/-- C8 witness: a document holding only a title entity has no item or
amount fragments and yields the empty result. -/
theorem parse_no_fragments_empty_result_witness :
    (collectEntities titleOnlyDocC8).item_entities = [] ∧
    (collectEntities titleOnlyDocC8).amount_entities = [] ∧
    ((parse_document_entities titleOnlyDocC8).line_items = [] ∧
      (parse_document_entities titleOnlyDocC8).review_needed = false ∧
      (parse_document_entities titleOnlyDocC8).warning = none) :=
  ⟨by decide, by decide,
    parse_no_fragments_empty_result titleOnlyDocC8 (by decide) (by decide)⟩

/-- C2 counterexample: an entity whose four polygon vertices coincide is not
dropped: `_create_parsed_entity` returns a fragment box whose height is `0`,
which is not `> 0`. -/
theorem createParsedEntity_zero_height_counterexample :
    _create_parsed_entity degenerateEntityC2 =
      some { text := "点", type := "item", center_y := q 1 2, center_x := q 1 2,
             x_min := q 1 2, x_max := q 1 2, height := 0 } := by
  decide

/-- C2 (amended): every fragment box produced by `_create_parsed_entity`
satisfies `height ≥ 0`; fragments are dropped exactly for a missing
polygon, fewer than 4 vertices, or empty coordinate sets — a derived height
of `0` is returned, not dropped, and never crashes. -/
theorem createParsedEntity_height_nonneg (entity : Entity) (pe : ParsedEntity)
    (h : _create_parsed_entity entity = some pe) : 0 ≤ pe.height := by
  unfold _create_parsed_entity at h
  split at h
  · exact absurd h (by simp)
  · split at h
    · exact absurd h (by simp)
    · split at h
      · exact absurd h (by simp)
      · exact absurd h (by simp)
      · rw [Option.some.injEq] at h
        subst h
        dsimp only
        rw [qSub_eq]
        rename_i x0 xs y0 ys _ _
        exact sub_nonneg.mpr (le_trans (listMin_le y0 ys) (le_listMax y0 ys))

/-- C2 witness: a well-formed entity produces a box of nonnegative height. -/
theorem createParsedEntity_height_nonneg_witness :
    _create_parsed_entity squareEntityC2 = some squareBoxC2 ∧ 0 ≤ squareBoxC2.height :=
  ⟨by decide, createParsedEntity_height_nonneg squareEntityC2 squareBoxC2 (by decide)⟩

theorem lt_length_of_getElem?_some {α : Type} (l : List α) (i : ℕ) (a : α)
    (h : l[i]? = some a) : i < l.length := by
  induction l generalizing i with
  | nil => simp at h
  | cons x xs ih =>
    cases i with
    | zero => simp
    | succ n =>
      simp only [List.getElem?_cons_succ] at h
      simpa using ih n h

/-- C1 counterexample: one item fragment and one amount fragment whose
x-extents overlap (`amount.x_min = 0.5 ≤ 0.9 = item.x_max`); the parser
nevertheless keeps the amount (`"500"`) and leaves `review_needed = false`,
because equal counts select ordinal pairing, which has no x-overlap check. -/
theorem parse_single_overlapping_pair_counterexample :
    _create_parsed_entity itemEntityC1 = some itemBoxC1 ∧
    _create_parsed_entity amountEntityC1 = some amountBoxC1 ∧
    amountBoxC1.x_min ≤ itemBoxC1.x_max ∧
    (parse_document_entities [itemEntityC1, amountEntityC1]).review_needed = false ∧
    (parse_document_entities [itemEntityC1, amountEntityC1]).line_items =
      [{ item := "テスト項目", amount := "500" }] := by
  decide

/-- C1 (amended): with exactly one item fragment and one amount fragment,
even when the item's x-extent reaches the amount's x-start, the counts are
equal, so ordinal pairing runs: the line item keeps the digit-filtered
amount text and `review_needed = false` with no warning (the x-overlap
discard exists only in the unequal-count row-grouping path). -/
theorem parse_single_overlapping_pair_keeps_amount (e_item e_amount : Entity)
    (pi pa : ParsedEntity)
    (hti : e_item.type_ = "item") (hta : e_amount.type_ = "amount")
    (hci : _create_parsed_entity e_item = some pi)
    (hca : _create_parsed_entity e_amount = some pa)
    (hover : pa.x_min ≤ pi.x_max) :
    (parse_document_entities [e_item, e_amount]).line_items =
      [{ item := cleanItemText pi.text, amount := filterDigits pa.text }] ∧
    (parse_document_entities [e_item, e_amount]).review_needed = false ∧
    (parse_document_entities [e_item, e_amount]).warning = none := by
  have hst : collectEntities [e_item, e_amount] =
      { item_entities := [pi], amount_entities := [pa],
        title := none, shop_name := none, date := none } := by
    simp [collectEntities, collectStep, initCollectState, hti, hta, hci, hca]
  have hmain := parse_document_entities_strategyA [e_item, e_amount]
    (by rw [hst]; simp) (by rw [hst]; rfl)
  rw [hst] at hmain
  rw [hmain]
  refine ⟨?_, rfl, rfl⟩
  simp [strategyA, sortByCenterY, List.insertionSort]

/-- C1 witness: the concrete overlapping pair satisfies the hypotheses and
the amended conclusion. -/
theorem parse_single_overlapping_pair_keeps_amount_witness :
    itemEntityC1.type_ = "item" ∧ amountEntityC1.type_ = "amount" ∧
    _create_parsed_entity itemEntityC1 = some itemBoxC1 ∧
    _create_parsed_entity amountEntityC1 = some amountBoxC1 ∧
    amountBoxC1.x_min ≤ itemBoxC1.x_max ∧
    ((parse_document_entities [itemEntityC1, amountEntityC1]).line_items =
      [{ item := cleanItemText itemBoxC1.text, amount := filterDigits amountBoxC1.text }] ∧
      (parse_document_entities [itemEntityC1, amountEntityC1]).review_needed = false ∧
      (parse_document_entities [itemEntityC1, amountEntityC1]).warning = none) :=
  ⟨rfl, rfl, by decide, by decide, by decide,
    parse_single_overlapping_pair_keeps_amount itemEntityC1 amountEntityC1 itemBoxC1
      amountBoxC1 rfl rfl (by decide) (by decide) (by decide)⟩

/-- C3: with equal nonzero item and amount counts, both given at strictly
increasing y-positions, ordinal pairing yields exactly one line item per
pair, pairing the i-th item with the i-th amount in vertical order, with
`review_needed = false` and no warning. -/
theorem ordinal_pairing_pairs_in_vertical_order (entities : List Entity)
    (hne : (collectEntities entities).item_entities ≠ [])
    (hlen : (collectEntities entities).item_entities.length =
      (collectEntities entities).amount_entities.length)
    (hitems : ((collectEntities entities).item_entities).Pairwise
      (fun a b => a.center_y < b.center_y))
    (hamounts : ((collectEntities entities).amount_entities).Pairwise
      (fun a b => a.center_y < b.center_y)) :
    (parse_document_entities entities).line_items =
      ((collectEntities entities).item_entities.zip
        (collectEntities entities).amount_entities).map
        (fun pr => { item := cleanItemText pr.1.text, amount := filterDigits pr.2.text }) ∧
    (parse_document_entities entities).line_items.length =
      (collectEntities entities).item_entities.length ∧
    (parse_document_entities entities).review_needed = false ∧
    (parse_document_entities entities).warning = none := by
  have hmain := parse_document_entities_strategyA entities hne hlen
  rw [hmain]
  dsimp only
  have hA : strategyA (collectEntities entities).item_entities
      (collectEntities entities).amount_entities =
      ((collectEntities entities).item_entities.zip
        (collectEntities entities).amount_entities).map
        (fun pr => { item := cleanItemText pr.1.text, amount := filterDigits pr.2.text }) := by
    unfold strategyA
    rw [sortByCenterY_eq_self _ hitems, sortByCenterY_eq_self _ hamounts]
  refine ⟨hA, ?_, rfl, rfl⟩
  rw [hA, List.length_map, List.length_zip, ← hlen, Nat.min_self]

/-- C3 witness: the two-row demo document satisfies the hypotheses and
yields the two line items in vertical order. -/
theorem ordinal_pairing_pairs_in_vertical_order_witness :
    (collectEntities demoDocC3).item_entities ≠ [] ∧
    (collectEntities demoDocC3).item_entities.length =
      (collectEntities demoDocC3).amount_entities.length ∧
    ((collectEntities demoDocC3).item_entities).Pairwise
      (fun a b => a.center_y < b.center_y) ∧
    ((collectEntities demoDocC3).amount_entities).Pairwise
      (fun a b => a.center_y < b.center_y) ∧
    ((parse_document_entities demoDocC3).line_items =
      ((collectEntities demoDocC3).item_entities.zip
        (collectEntities demoDocC3).amount_entities).map
        (fun pr => { item := cleanItemText pr.1.text, amount := filterDigits pr.2.text }) ∧
      (parse_document_entities demoDocC3).line_items.length =
        (collectEntities demoDocC3).item_entities.length ∧
      (parse_document_entities demoDocC3).review_needed = false ∧
      (parse_document_entities demoDocC3).warning = none) :=
  ⟨by decide, by decide, by decide, by decide,
    ordinal_pairing_pairs_in_vertical_order demoDocC3 (by decide) (by decide)
      (by decide) (by decide)⟩

/-- C4: in the row-grouping strategy, a row whose x-sorted items and amounts
both exist but whose rightmost item does not end left of the leftmost
amount has its amount text discarded: the row emits one LineItem with the
merged item text and amount `"0"`, and any Strategy-B run containing such a
row reports `review_needed = true`. -/
theorem row_overlap_discards_amount (row : List ParsedEntity)
    (i0 a0 : ParsedEntity) (is' as' : List ParsedEntity)
    (hitems : sortByCenterX (row.filter (fun e => e.type = "item")) = i0 :: is')
    (hamounts : sortByCenterX (row.filter (fun e => e.type = "amount")) = a0 :: as')
    (hover : ¬ ((i0 :: is').getLast (List.cons_ne_nil i0 is')).x_max < a0.x_min)
    (htext : rowFinalItemText row ≠ "") :
    processRow row = ([{ item := rowFinalItemText row, amount := "0" }], true) ∧
    ∀ pre post : List (List ParsedEntity),
      (strategyBFold (pre ++ row :: post)).2 = true := by
  have hflag : rowAmountTextAndFlag row = ("", true) := by
    unfold rowAmountTextAndFlag
    rw [hitems, hamounts]
    exact if_neg hover
  have hrow : processRow row = ([{ item := rowFinalItemText row, amount := "0" }], true) := by
    unfold processRow
    rw [hflag]
    simp [htext]
  refine ⟨hrow, fun pre post => ?_⟩
  unfold strategyBFold
  rw [List.foldl_append, List.foldl_cons]
  apply strategyBFold_go_true
  simp [strategyBStep, hrow]

/-- C4 witness: a concrete violating row emits the `"0"` LineItem with
review flagged, and a run made of that single row reports review. -/
theorem row_overlap_discards_amount_witness :
    sortByCenterX ([itemBoxC4, amountBoxC4].filter (fun e => e.type = "item")) = [itemBoxC4] ∧
    sortByCenterX ([itemBoxC4, amountBoxC4].filter (fun e => e.type = "amount")) = [amountBoxC4] ∧
    ¬ (([itemBoxC4].getLast (List.cons_ne_nil itemBoxC4 [])).x_max < amountBoxC4.x_min) ∧
    rowFinalItemText [itemBoxC4, amountBoxC4] ≠ "" ∧
    (processRow [itemBoxC4, amountBoxC4] =
      ([{ item := rowFinalItemText [itemBoxC4, amountBoxC4], amount := "0" }], true) ∧
      (strategyBFold [[itemBoxC4, amountBoxC4]]).2 = true) := by
  have T := row_overlap_discards_amount [itemBoxC4, amountBoxC4] itemBoxC4 amountBoxC4 [] []
    (by decide) (by decide) (by decide) (by decide)
  exact ⟨by decide, by decide, by decide, by decide, T.1, T.2 [] []⟩

/-- C10: in the ordinal-pairing path an amount fragment whose text has no
digit characters yields a line item whose amount is the empty string while
`review_needed` stays false; by contrast a row-grouping row with nonempty
item text and empty final amount text emits amount `"0"` and contributes
`true` to `is_review_needed`. -/
theorem ordinal_digitless_amount_vs_row_grouping (entities : List Entity)
    (hne : (collectEntities entities).item_entities ≠ [])
    (hlen : (collectEntities entities).item_entities.length =
      (collectEntities entities).amount_entities.length) :
    ((parse_document_entities entities).review_needed = false ∧
      ∀ (i : ℕ) (am : ParsedEntity),
        (sortByCenterY (collectEntities entities).amount_entities)[i]? = some am →
        am.text.data.all (fun c => !c.isDigit) = true →
        ((parse_document_entities entities).line_items[i]?).map LineItem.amount = some "") ∧
    (∀ row : List ParsedEntity,
      (rowAmountTextAndFlag row).1 = "" → rowFinalItemText row ≠ "" →
      processRow row = ([{ item := rowFinalItemText row, amount := "0" }], true)) := by
  have hmain := parse_document_entities_strategyA entities hne hlen
  refine ⟨⟨by rw [hmain], ?_⟩, ?_⟩
  · intro i am ham hnd
    rw [hmain]
    dsimp only
    unfold strategyA
    have hi_lt : i < (sortByCenterY (collectEntities entities).amount_entities).length :=
      lt_length_of_getElem?_some _ i am ham
    have hlen_s : (sortByCenterY (collectEntities entities).item_entities).length =
        (sortByCenterY (collectEntities entities).amount_entities).length := by
      rw [length_sortByCenterY, length_sortByCenterY, hlen]
    have hi_lt_items : i < (sortByCenterY (collectEntities entities).item_entities).length := by
      omega
    have hitem := List.getElem?_eq_getElem hi_lt_items
    rw [List.getElem?_map, getElem?_zip_of _ _ i _ am hitem ham]
    simp [filterDigits_eq_empty am.text hnd]
  · intro row hamt htext
    simp [processRow, hamt, htext]

/-- C10 witness: a digit-free amount in the ordinal path gives amount `""`
with review off; a lone-item row in the grouping path gives amount `"0"`
with review on. -/
theorem ordinal_digitless_amount_vs_row_grouping_witness :
    (collectEntities [itemEntityC10, amountEntityC10]).item_entities ≠ [] ∧
    (collectEntities [itemEntityC10, amountEntityC10]).item_entities.length =
      (collectEntities [itemEntityC10, amountEntityC10]).amount_entities.length ∧
    (parse_document_entities [itemEntityC10, amountEntityC10]).review_needed = false ∧
    ((parse_document_entities [itemEntityC10, amountEntityC10]).line_items[0]?).map
      LineItem.amount = some "" ∧
    processRow [loneItemBoxC10] =
      ([{ item := rowFinalItemText [loneItemBoxC10], amount := "0" }], true) := by
  have T := ordinal_digitless_amount_vs_row_grouping [itemEntityC10, amountEntityC10]
    (by decide) (by decide)
  exact ⟨by decide, by decide, T.1.1,
    T.1.2 0 amountBoxC10 (by decide) (by decide),
    T.2 [loneItemBoxC10] (by decide) (by decide)⟩
